import Mathlib

/-!
Verification development for the financial-assistant workflow
(routing, symbol resolution, data aggregation, report composition).

Python floats are modelled as rationals (`ℚ`), Python ints as `ℤ`/`ℕ`.
Upstream JSON numeric values are modelled as `JNum` (absent key, JSON
null, or a number) and JSON string values as `JStr`, because the code
distinguishes absent keys (dict `.get` default applies) from null values
(`.get` returns `None`, which pydantic validators coerce to 0 for the
fields that have a validator and reject for the fields that do not).
-/

namespace FinAssist

/-- Upstream JSON numeric field: the key is absent, the value is JSON
null, or the value is a number. -/
inductive JNum
  | absent
  | null
  | num (q : ℚ)
  deriving DecidableEq, Repr

/-- Upstream JSON string field: absent key, JSON null, or a string. -/
inductive JStr
  | absent
  | null
  | val (s : String)
  deriving DecidableEq, Repr

/-- Value handed to a float field that has a `convert_to_float`-style
validator: `.get(key, 0)` yields 0 for an absent key, and the validator
maps a null value to 0.0. -/
def JNum.validated : JNum → ℚ
  | .absent => 0
  | .null => 0
  | .num q => q

/-- Value handed to a plain float field (no validator): an absent key
falls back to the `.get` default 0; a null value makes pydantic raise a
ValidationError (`none`). -/
def JNum.plain : JNum → Option ℚ
  | .absent => some 0
  | .null => none
  | .num q => some q

/-- The value a plain float field ends up with when validation succeeds. -/
def JNum.plainD : JNum → ℚ
  | .absent => 0
  | .null => 0
  | .num q => q

/-- Python `int(v)`: truncation toward zero on the rational value. -/
def pyInt (q : ℚ) : ℤ := q.num.tdiv (q.den : ℤ)

/-- Value handed to an int field with a `convert_volumes`-style validator:
absent key gives the `.get` default 0 and null is coerced to 0; a number
is truncated with `int(v)`. -/
def JNum.validatedInt : JNum → ℤ
  | .absent => 0
  | .null => 0
  | .num q => pyInt q

/-- Value handed to a plain int field with `.get` default `d`: null or a
fractional number makes pydantic raise (`none`). -/
def JNum.plainInt (d : ℤ) : JNum → Option ℤ
  | .absent => some d
  | .null => none
  | .num q => if q.den = 1 then some q.num else none

/-- The value a plain int field ends up with when validation succeeds. -/
def JNum.plainIntD (d : ℤ) : JNum → ℤ
  | .absent => d
  | .null => 0
  | .num q => q.num

/-- Whether a numeric upstream value is acceptable for a plain pydantic
`int` field: a number must be integral (no fractional part). -/
def JNum.intOk : JNum → Bool
  | .num v => v.den == 1
  | _ => true

/-- Value handed to a plain `str` field with `.get` default `d`: a null
value makes pydantic raise (`none`). -/
def JStr.withDefault (d : String) : JStr → Option String
  | .absent => some d
  | .null => none
  | .val s => some s

/-- The string a plain `str` field ends up with when validation succeeds. -/
def JStr.withDefaultD (d : String) : JStr → String
  | .absent => d
  | .null => d
  | .val s => s

/-- Value handed to an `Optional[str]` field with `.get` default `d`:
null is kept as `None` (no validation error). -/
def JStr.optional (d : String) : JStr → Option String
  | .absent => some d
  | .null => none
  | .val s => some s

/-- `models.schemas.IncomeStatementData` (pydantic): every numeric field
is a total `ℚ`, mirroring the model's guarantee that numeric fields are
floats, never null. -/
structure IncomeStatementData where
  symbol : String
  date : String
  period : String
  revenue : ℚ
  gross_profit : ℚ
  operating_income : ℚ
  net_income : ℚ
  eps : ℚ
  gross_profit_ratio : ℚ
  operating_income_ratio : ℚ
  net_income_ratio : ℚ
  research_and_development : ℚ
  total_operating_expenses : ℚ
  success : Bool
  error : Option String
  deriving DecidableEq, Repr

/-- `models.schemas.CompanyFinancialsData` (pydantic). -/
structure CompanyFinancialsData where
  symbol : String
  company_name : String
  market_cap : ℚ
  beta : ℚ
  pe_ratio : ℚ
  price_to_book : ℚ
  price_to_sales : ℚ
  debt_to_equity : ℚ
  current_ratio : ℚ
  quick_ratio : ℚ
  roe : ℚ
  roa : ℚ
  revenue_growth : ℚ
  gross_margin : ℚ
  operating_margin : ℚ
  net_margin : ℚ
  enterprise_value : ℚ
  working_capital : ℚ
  date : String
  success : Bool
  error : Option String
  deriving DecidableEq, Repr

/-- `models.schemas.StockPriceData` (pydantic). The Python field `open`
is rendered as `open_` because `open` is a Lean keyword. -/
structure StockPriceData where
  symbol : String
  name : String
  price : ℚ
  change : ℚ
  change_percent : ℚ
  previous_close : ℚ
  open_ : ℚ
  high : ℚ
  low : ℚ
  volume : ℤ
  avg_volume : ℤ
  market_cap : ℚ
  pe_ratio : ℚ
  eps : ℚ
  fifty_two_week_high : ℚ
  fifty_two_week_low : ℚ
  exchange : String
  timestamp : ℤ
  success : Bool
  error : Option String
  deriving DecidableEq, Repr

/-- `models.schemas.CompanyProfileData` (pydantic). -/
structure CompanyProfileData where
  symbol : String
  company_name : String
  description : String
  industry : String
  sector : String
  website : String
  ceo : String
  employees : ℤ
  country : String
  exchange : String
  currency : String
  success : Bool
  error : Option String
  deriving DecidableEq, Repr

/-- `models.schemas.SymbolSearchResult` (pydantic): `found` is this
record's success flag. -/
structure SymbolSearchResult where
  symbol : String
  company_name : Option String
  exchange : Option String
  found : Bool
  error : Option String
  deriving DecidableEq, Repr

/-- Python `str.lower()` (character-wise). -/
def pyLower (s : String) : String := String.mk (s.data.map Char.toLower)

/-- Python `str.upper()` (character-wise). -/
def pyUpper (s : String) : String := String.mk (s.data.map Char.toUpper)

/-- Python `str.strip()`: drop leading and trailing whitespace. -/
def pyStrip (s : String) : String :=
  String.mk
    (((s.data.dropWhile Char.isWhitespace).reverse.dropWhile
      Char.isWhitespace).reverse)

/-- Python `str.replace` specialised to the single-character pattern
`.replace(chr(95), chr(32))` the alone flow uses on category names. -/
def replaceUnderscores (s : String) : String :=
  String.mk (s.data.map (fun c => if c = '_' then ' ' else c))

/-- Python truthiness-based `a or b` on floats: `a` when nonzero, else `b`. -/
def pyOr (a b : ℚ) : ℚ := if a ≠ 0 then a else b

/-- Python truthiness-based `a or b` on strings: `a` when non-empty, else `b`. -/
def pyOrS (a b : String) : String := if a ≠ "" then a else b

/-- Decimal digit characters of `n`, least significant first. -/
def natDigitsRev (n : ℕ) : List Char :=
  (Nat.toDigits 10 n).reverse

/-- Insert a comma after every three digits of a least-significant-first
digit list (thousands grouping of Python `:,` formatting). -/
def commaRevAux : List Char → ℕ → List Char
  | [], _ => []
  | c :: cs, k =>
    if k ≠ 0 ∧ k % 3 = 0 then ',' :: c :: commaRevAux cs (k + 1)
    else c :: commaRevAux cs (k + 1)

/-- Render a natural number with thousands separators. -/
def natCommas (n : ℕ) : String :=
  String.mk ((commaRevAux (natDigitsRev n) 0).reverse)

/-- Round `q` scaled by `scale`, half away from zero rounded up; a
deterministic stand-in for Python float formatting's rounding. -/
def roundScaled (q : ℚ) (scale : ℕ) : ℤ := ⌊q * (scale : ℚ) + 1 / 2⌋

/-- Left-pad a string with zeros to width `w`. -/
def padZeros (s : String) (w : ℕ) : String :=
  String.mk (List.replicate (w - s.length) '0') ++ s

/-- Render the integer `n` (the value scaled by `10 ^ decs`) with `decs`
decimal places. -/
def fmtScaled (n : ℤ) (decs : ℕ) : String :=
  let sign := if n < 0 then "-" else ""
  let m := n.natAbs
  let p := 10 ^ decs
  if decs = 0 then sign ++ toString (m / p)
  else sign ++ toString (m / p) ++ "." ++ padZeros (toString (m % p)) decs

/-- Stand-in for Python fixed-point float formatting `{:.Nf}`. -/
def fmtFix (q : ℚ) (decs : ℕ) : String :=
  fmtScaled (roundScaled q (10 ^ decs)) decs

/-- Python `{:,.0f}`: rounded to integer with thousands separators. -/
def fmtCommas0 (q : ℚ) : String :=
  let n := roundScaled q 1
  (if n < 0 then "-" else "") ++ natCommas n.natAbs

/-- Python `{:.1%}`: percentage with one decimal place. -/
def fmtPct1 (q : ℚ) : String := fmtFix (q * 100) 1 ++ "%"

/-- Stand-in for Python `str()` on a float value: a deterministic
rendering of the rational. -/
def pyRepr (q : ℚ) : String := toString q

/-- Market-cap bucket insight of `_generate_key_insights` (the nested
`if market_cap > 0` block with strict greater-than boundaries). -/
def market_cap_bucket (market_cap : ℚ) : Option String :=
  if market_cap > 0 then
    some (if market_cap > 200000000000 then "Large-cap company (>$200B)"
      else if market_cap > 10000000000 then "Mid-cap company ($10B-$200B)"
      else "Small-cap company (<$10B)")
  else none

/-- `FinancialAssistantWorkflow._generate_key_insights`. -/
def generate_key_insights (income_data : IncomeStatementData)
    (financials_data : CompanyFinancialsData) (price_data : StockPriceData) :
    List String :=
  let l1 := if income_data.revenue > 0 then
    ["Revenue: $" ++ fmtCommas0 income_data.revenue] else []
  let l2 := if income_data.net_income_ratio > 0 then
    ["Net margin: " ++ fmtPct1 income_data.net_income_ratio] else []
  let pe := pyOr financials_data.pe_ratio price_data.pe_ratio
  let l3 := if pe > 0 then ["P/E ratio: " ++ fmtFix pe 2] else []
  let cp := price_data.change_percent
  let l4 := if cp ≠ 0 then
    ["Stock " ++ (if cp > 0 then "up" else "down") ++ " " ++
      fmtFix |cp| 2 ++ "% today"] else []
  let mc := pyOr financials_data.market_cap price_data.market_cap
  let l5 := (market_cap_bucket mc).toList
  let insights := l1 ++ l2 ++ l3 ++ l4 ++ l5
  if insights.isEmpty then ["Financial data analysis in progress"] else insights

/-- `FinancialAssistantWorkflow._identify_strengths`. -/
def identify_strengths (income_data : IncomeStatementData)
    (financials_data : CompanyFinancialsData) (_price_data : StockPriceData) :
    List String :=
  let net_margin := income_data.net_income_ratio
  let l1 := if net_margin > 15 / 100 then
    ["Strong profitability with " ++ fmtPct1 net_margin ++ " net margin"] else []
  let roe := financials_data.roe
  let l2 := if roe > 15 / 100 then
    ["Excellent return on equity at " ++ fmtPct1 roe] else []
  let dte := financials_data.debt_to_equity
  let l3 := if 0 < dte ∧ dte < 3 / 10 then ["Conservative debt levels"] else []
  let growth := financials_data.revenue_growth
  let l4 := if growth > 1 / 10 then
    ["Strong revenue growth at " ++ fmtPct1 growth] else []
  let strengths := l1 ++ l2 ++ l3 ++ l4
  if strengths.isEmpty then ["Detailed analysis requires additional data"]
  else strengths

/-- `FinancialAssistantWorkflow._identify_concerns`. -/
def identify_concerns (income_data : IncomeStatementData)
    (financials_data : CompanyFinancialsData) (price_data : StockPriceData) :
    List String :=
  let net_margin := income_data.net_income_ratio
  let l1 := if net_margin < 0 then ["Company is currently unprofitable"]
    else if net_margin < 5 / 100 then ["Low profit margins"] else []
  let dte := financials_data.debt_to_equity
  let l2 := if dte > 1 then ["High debt levels relative to equity"] else []
  let roe := financials_data.roe
  let l3 := if 0 < roe ∧ roe < 5 / 100 then ["Low return on equity"] else []
  let pe := pyOr financials_data.pe_ratio price_data.pe_ratio
  let l4 := if pe > 30 then
    ["High P/E ratio at " ++ fmtFix pe 1 ++ " may indicate overvaluation"]
    else []
  let concerns := l1 ++ l2 ++ l3 ++ l4
  if concerns.isEmpty then ["No significant concerns identified"] else concerns

/-- `FinancialAssistantWorkflow._calculate_data_quality`: the fraction of
non-zero fields among the fixed 11-field checklist. -/
def calculate_data_quality (income_data : IncomeStatementData)
    (financials_data : CompanyFinancialsData) (price_data : StockPriceData) :
    ℚ :=
  let income_fields : List ℚ := [income_data.revenue, income_data.net_income,
    income_data.eps, income_data.net_income_ratio]
  let financial_fields : List ℚ := [financials_data.pe_ratio,
    financials_data.market_cap, financials_data.roe,
    financials_data.debt_to_equity]
  let price_fields : List ℚ := [price_data.price, price_data.change,
    (price_data.volume : ℚ)]
  let total_fields := income_fields.length + financial_fields.length +
    price_fields.length
  let filled_fields :=
    ((income_fields ++ financial_fields ++ price_fields).filter
      (fun v => v ≠ 0)).length
  if total_fields > 0 then (filled_fields : ℚ) / (total_fields : ℚ) else 0

/-- `FinancialAssistantWorkflow._calculate_completeness`: the fraction of
the three records having at least one non-zero key field. -/
def calculate_completeness (income_data : IncomeStatementData)
    (financials_data : CompanyFinancialsData) (price_data : StockPriceData) :
    ℚ :=
  let s1 : ℕ := if income_data.revenue ≠ 0 ∨ income_data.net_income ≠ 0
    then 1 else 0
  let s2 : ℕ := if financials_data.pe_ratio ≠ 0 ∨ financials_data.market_cap ≠ 0
    then 1 else 0
  let s3 : ℕ := if price_data.price ≠ 0 ∨ price_data.change ≠ 0 then 1 else 0
  ((s1 + s2 + s3 : ℕ) : ℚ) / 3

/-- One element of an upstream `income-statement/{symbol}` payload
(`tools.financial_modeling_prep`), field per field as the code reads it. -/
structure RawIncome where
  date : JStr
  period : JStr
  revenue : JNum
  grossProfit : JNum
  operatingIncome : JNum
  netIncome : JNum
  eps : JNum
  grossProfitRatio : JNum
  operatingIncomeRatio : JNum
  netIncomeRatio : JNum
  researchAndDevelopmentExpenses : JNum
  totalOperatingExpenses : JNum
  deriving DecidableEq, Repr

/-- One element of an upstream `key-metrics/{symbol}` payload. -/
structure RawMetrics where
  peRatio : JNum
  revenueGrowth : JNum
  enterpriseValue : JNum
  workingCapital : JNum
  date : JStr
  deriving DecidableEq, Repr

/-- One element of an upstream `ratios/{symbol}` payload. -/
structure RawRatios where
  priceToBookRatio : JNum
  priceToSalesRatio : JNum
  debtEquityRatio : JNum
  currentRatio : JNum
  quickRatio : JNum
  returnOnEquity : JNum
  returnOnAssets : JNum
  grossProfitMargin : JNum
  operatingProfitMargin : JNum
  netProfitMargin : JNum
  deriving DecidableEq, Repr

/-- One element of an upstream `profile/{symbol}` payload. -/
structure RawProfile where
  companyName : JStr
  mktCap : JNum
  beta : JNum
  description : JStr
  industry : JStr
  sector : JStr
  website : JStr
  ceo : JStr
  fullTimeEmployees : JNum
  country : JStr
  exchangeShortName : JStr
  currency : JStr
  deriving DecidableEq, Repr

/-- One element of an upstream `quote/{symbol}` payload. -/
structure RawQuote where
  name : JStr
  price : JNum
  change : JNum
  changesPercentage : JNum
  previousClose : JNum
  openQ : JNum
  dayHigh : JNum
  dayLow : JNum
  volume : JNum
  avgVolume : JNum
  marketCap : JNum
  pe : JNum
  epsQ : JNum
  yearHigh : JNum
  yearLow : JNum
  exchange : JStr
  timestampQ : JNum
  deriving DecidableEq, Repr

/-- One element of an upstream `search` payload. -/
structure RawSearchItem where
  symbol : JStr
  name : JStr
  exchangeShortName : JStr
  deriving DecidableEq, Repr

/-- An upstream outcome: a transport-level failure raised by
`_make_request` (timeout, HTTP error, malformed JSON), or a JSON
array-of-objects payload. -/
abbrev Upstream (α : Type) := Except String (List α)

/-- The all-zero failure `IncomeStatementData` the code builds both for an
empty payload and in its `except` handler. -/
def incomeFailure (symbol period err : String) : IncomeStatementData :=
  { symbol := symbol, date := "Unknown", period := period, revenue := 0,
    gross_profit := 0, operating_income := 0, net_income := 0, eps := 0,
    gross_profit_ratio := 0, operating_income_ratio := 0,
    net_income_ratio := 0, research_and_development := 0,
    total_operating_expenses := 0, success := false, error := some err }

/-- Pydantic validation succeeds for an upstream income-statement object
exactly when no validator-less field carries a JSON null. -/
def rawIncomeWf (x : RawIncome) : Prop :=
  x.date ≠ .null ∧ x.period ≠ .null ∧ x.eps ≠ .null ∧
  x.grossProfitRatio ≠ .null ∧ x.operatingIncomeRatio ≠ .null ∧
  x.netIncomeRatio ≠ .null ∧ x.researchAndDevelopmentExpenses ≠ .null ∧
  x.totalOperatingExpenses ≠ .null

instance : DecidablePred rawIncomeWf := fun x => by
  unfold rawIncomeWf; infer_instance

/-- Constructing `IncomeStatementData` from the first payload element:
`revenue`, `gross_profit`, `operating_income`, `net_income` go through the
`convert_to_float` validator (null becomes 0), all other numeric fields
reject null; `none` models the raised ValidationError. -/
def buildIncome (symbol period : String) (x : RawIncome) :
    Option IncomeStatementData :=
  if rawIncomeWf x then some
    { symbol := symbol, date := x.date.withDefaultD "Unknown",
      period := x.period.withDefaultD period,
      revenue := x.revenue.validated,
      gross_profit := x.grossProfit.validated,
      operating_income := x.operatingIncome.validated,
      net_income := x.netIncome.validated,
      eps := x.eps.plainD,
      gross_profit_ratio := x.grossProfitRatio.plainD,
      operating_income_ratio := x.operatingIncomeRatio.plainD,
      net_income_ratio := x.netIncomeRatio.plainD,
      research_and_development := x.researchAndDevelopmentExpenses.plainD,
      total_operating_expenses := x.totalOperatingExpenses.plainD,
      success := true, error := none }
  else none

/-- `FinancialModelingPrepTools.get_income_statement`: never raises; a
transport failure, an empty payload, or a ValidationError all degrade to
the zero-filled failure record. -/
def get_income_statement (symbol period : String)
    (upstream : Upstream RawIncome) : IncomeStatementData :=
  let symbolU := pyUpper symbol
  match upstream with
  | .error e => incomeFailure symbolU period
      ("Failed to fetch income statement for " ++ symbolU ++ ": " ++ e)
  | .ok [] => incomeFailure symbolU period
      ("No income statement data found for " ++ symbolU)
  | .ok (x :: _) =>
    match buildIncome symbolU period x with
    | some r => r
    | none => incomeFailure symbolU period
        ("Failed to fetch income statement for " ++ symbolU ++
          ": validation error")

/-- The all-zero failure `CompanyFinancialsData` (both the
empty-metrics branch and the `except` handler build this shape). -/
def financialsFailure (symbol err : String) : CompanyFinancialsData :=
  { symbol := symbol, company_name := "Unknown", market_cap := 0, beta := 0,
    pe_ratio := 0, price_to_book := 0, price_to_sales := 0,
    debt_to_equity := 0, current_ratio := 0, quick_ratio := 0, roe := 0,
    roa := 0, revenue_growth := 0, gross_margin := 0, operating_margin := 0,
    net_margin := 0, enterprise_value := 0, working_capital := 0,
    date := "Unknown", success := false, error := some err }

/-- Field lookup on an optional payload element: a missing element is the
empty dict `{}`, whose `.get` always yields the default. -/
def getNum {α : Type} (o : Option α) (f : α → JNum) : JNum :=
  match o with
  | none => .num 0
  | some r => f r

/-- Field lookup for string fields on an optional payload element. -/
def getStr {α : Type} (o : Option α) (f : α → JStr) : JStr :=
  match o with
  | none => .absent
  | some r => f r

/-- Pydantic validation succeeds for `CompanyFinancialsData` exactly when
none of its validator-less fields receives a JSON null. -/
def rawFinancialsWf (m : RawMetrics) (ratios : Option RawRatios)
    (profile : Option RawProfile) : Prop :=
  m.peRatio ≠ .null ∧ m.revenueGrowth ≠ .null ∧ m.date ≠ .null ∧
  getNum ratios RawRatios.priceToBookRatio ≠ .null ∧
  getNum ratios RawRatios.priceToSalesRatio ≠ .null ∧
  getNum ratios RawRatios.debtEquityRatio ≠ .null ∧
  getNum ratios RawRatios.currentRatio ≠ .null ∧
  getNum ratios RawRatios.quickRatio ≠ .null ∧
  getNum ratios RawRatios.returnOnEquity ≠ .null ∧
  getNum ratios RawRatios.returnOnAssets ≠ .null ∧
  getNum ratios RawRatios.grossProfitMargin ≠ .null ∧
  getNum ratios RawRatios.operatingProfitMargin ≠ .null ∧
  getNum ratios RawRatios.netProfitMargin ≠ .null ∧
  getStr profile RawProfile.companyName ≠ .null ∧
  getNum profile RawProfile.beta ≠ .null

instance : ∀ m r p, Decidable (rawFinancialsWf m r p) := fun m r p => by
  unfold rawFinancialsWf; infer_instance

/-- Constructing `CompanyFinancialsData` from the metrics, ratios and
profile elements (`market_cap`, `enterprise_value`, `working_capital` go
through `convert_large_numbers`; the rest reject null). -/
def buildFinancials (symbol : String) (m : RawMetrics)
    (ratios : Option RawRatios) (profile : Option RawProfile) :
    Option CompanyFinancialsData :=
  if rawFinancialsWf m ratios profile then some
    { symbol := symbol,
      company_name := (getStr profile RawProfile.companyName).withDefaultD
        "Unknown",
      market_cap := (getNum profile RawProfile.mktCap).validated,
      beta := (getNum profile RawProfile.beta).plainD,
      pe_ratio := m.peRatio.plainD,
      price_to_book := (getNum ratios RawRatios.priceToBookRatio).plainD,
      price_to_sales := (getNum ratios RawRatios.priceToSalesRatio).plainD,
      debt_to_equity := (getNum ratios RawRatios.debtEquityRatio).plainD,
      current_ratio := (getNum ratios RawRatios.currentRatio).plainD,
      quick_ratio := (getNum ratios RawRatios.quickRatio).plainD,
      roe := (getNum ratios RawRatios.returnOnEquity).plainD,
      roa := (getNum ratios RawRatios.returnOnAssets).plainD,
      revenue_growth := m.revenueGrowth.plainD,
      gross_margin := (getNum ratios RawRatios.grossProfitMargin).plainD,
      operating_margin :=
        (getNum ratios RawRatios.operatingProfitMargin).plainD,
      net_margin := (getNum ratios RawRatios.netProfitMargin).plainD,
      enterprise_value := m.enterpriseValue.validated,
      working_capital := m.workingCapital.validated,
      date := m.date.withDefaultD "Unknown",
      success := true, error := none }
  else none

/-- `FinancialModelingPrepTools.get_company_financials`: the three
sub-requests are gathered with `return_exceptions=True`, a failed
sub-request is replaced by `[]`; a failed or empty key-metrics leg makes
the whole operation return the all-zero failure record, while a failed or
empty ratios or profile leg only zero-defaults its own fields. -/
def get_company_financials (symbol : String)
    (metricsU : Upstream RawMetrics) (ratiosU : Upstream RawRatios)
    (profileU : Upstream RawProfile) : CompanyFinancialsData :=
  let symbolU := pyUpper symbol
  let metricsL := (metricsU.toOption).getD []
  let ratiosL := (ratiosU.toOption).getD []
  let profileL := (profileU.toOption).getD []
  match metricsL with
  | [] => financialsFailure symbolU ("No financial data found for " ++ symbolU)
  | m :: _ =>
    match buildFinancials symbolU m ratiosL.head? profileL.head? with
    | some r => r
    | none => financialsFailure symbolU
        ("Failed to fetch company financials for " ++ symbolU ++
          ": validation error")

/-- The all-zero failure `StockPriceData`. -/
def priceFailure (symbol err : String) : StockPriceData :=
  { symbol := symbol, name := "Unknown", price := 0, change := 0,
    change_percent := 0, previous_close := 0, open_ := 0, high := 0,
    low := 0, volume := 0, avg_volume := 0, market_cap := 0, pe_ratio := 0,
    eps := 0, fifty_two_week_high := 0, fifty_two_week_low := 0,
    exchange := "Unknown", timestamp := 0, success := false,
    error := some err }

/-- Pydantic validation succeeds for `StockPriceData` exactly when none of
its validator-less fields receives a JSON null (and the `timestamp` int
field receives an integral number). -/
def rawQuoteWf (q : RawQuote) : Prop :=
  q.name ≠ .null ∧ q.changesPercentage ≠ .null ∧ q.marketCap ≠ .null ∧
  q.pe ≠ .null ∧ q.epsQ ≠ .null ∧ q.yearHigh ≠ .null ∧ q.yearLow ≠ .null ∧
  q.exchange ≠ .null ∧ q.timestampQ ≠ .null ∧
  q.timestampQ.intOk = true

instance : DecidablePred rawQuoteWf := fun q => by
  unfold rawQuoteWf; infer_instance

/-- Constructing `StockPriceData` from the quote element: `price`,
`change`, `previous_close`, `open`, `high`, `low` go through
`convert_prices`, `volume` and `avg_volume` through `convert_volumes`;
the rest reject null. An absent `timestamp` falls back to
`int(datetime.now().timestamp())`, passed in as `nowTs`. -/
def buildQuote (symbol : String) (nowTs : ℤ) (q : RawQuote) :
    Option StockPriceData :=
  if rawQuoteWf q then some
    { symbol := symbol, name := q.name.withDefaultD "Unknown",
      price := q.price.validated, change := q.change.validated,
      change_percent := q.changesPercentage.plainD,
      previous_close := q.previousClose.validated,
      open_ := q.openQ.validated, high := q.dayHigh.validated,
      low := q.dayLow.validated, volume := q.volume.validatedInt,
      avg_volume := q.avgVolume.validatedInt,
      market_cap := q.marketCap.plainD, pe_ratio := q.pe.plainD,
      eps := q.epsQ.plainD, fifty_two_week_high := q.yearHigh.plainD,
      fifty_two_week_low := q.yearLow.plainD,
      exchange := q.exchange.withDefaultD "Unknown",
      timestamp := q.timestampQ.plainIntD nowTs,
      success := true, error := none }
  else none

/-- `FinancialModelingPrepTools.get_stock_price`. -/
def get_stock_price (symbol : String) (nowTs : ℤ)
    (upstream : Upstream RawQuote) : StockPriceData :=
  let symbolU := pyUpper symbol
  match upstream with
  | .error e => priceFailure symbolU
      ("Failed to fetch stock price for " ++ symbolU ++ ": " ++ e)
  | .ok [] => priceFailure symbolU ("No price data found for " ++ symbolU)
  | .ok (q :: _) =>
    match buildQuote symbolU nowTs q with
    | some r => r
    | none => priceFailure symbolU
        ("Failed to fetch stock price for " ++ symbolU ++
          ": validation error")

/-- The failure `CompanyProfileData` (empty payload and `except` handler). -/
def profileFailure (symbol err : String) : CompanyProfileData :=
  { symbol := symbol, company_name := "Unknown",
    description := "No description available", industry := "Unknown",
    sector := "Unknown", website := "", ceo := "Unknown", employees := 0,
    country := "Unknown", exchange := "Unknown", currency := "USD",
    success := false, error := some err }

/-- Pydantic validation succeeds for `CompanyProfileData` exactly when no
string field receives a JSON null and `fullTimeEmployees` is not null or
fractional (no field of this model has a coercing validator). -/
def rawProfileWf (p : RawProfile) : Prop :=
  p.companyName ≠ .null ∧ p.description ≠ .null ∧ p.industry ≠ .null ∧
  p.sector ≠ .null ∧ p.website ≠ .null ∧ p.ceo ≠ .null ∧
  p.country ≠ .null ∧ p.exchangeShortName ≠ .null ∧ p.currency ≠ .null ∧
  p.fullTimeEmployees ≠ .null ∧
  p.fullTimeEmployees.intOk = true

instance : DecidablePred rawProfileWf := fun p => by
  unfold rawProfileWf; infer_instance

/-- Constructing `CompanyProfileData` from the profile element. -/
def buildProfile (symbol : String) (p : RawProfile) :
    Option CompanyProfileData :=
  if rawProfileWf p then some
    { symbol := symbol,
      company_name := p.companyName.withDefaultD "Unknown",
      description := p.description.withDefaultD "No description available",
      industry := p.industry.withDefaultD "Unknown",
      sector := p.sector.withDefaultD "Unknown",
      website := p.website.withDefaultD "",
      ceo := p.ceo.withDefaultD "Unknown",
      employees := p.fullTimeEmployees.plainIntD 0,
      country := p.country.withDefaultD "Unknown",
      exchange := p.exchangeShortName.withDefaultD "Unknown",
      currency := p.currency.withDefaultD "USD",
      success := true, error := none }
  else none

/-- `FinancialModelingPrepTools.get_company_profile`. -/
def get_company_profile (symbol : String) (upstream : Upstream RawProfile) :
    CompanyProfileData :=
  let symbolU := pyUpper symbol
  match upstream with
  | .error e => profileFailure symbolU
      ("Failed to fetch company profile for " ++ symbolU ++ ": " ++ e)
  | .ok [] => profileFailure symbolU
      ("No profile data found for " ++ symbolU)
  | .ok (p :: _) =>
    match buildProfile symbolU p with
    | some r => r
    | none => profileFailure symbolU
        ("Failed to fetch company profile for " ++ symbolU ++
          ": validation error")

/-- Python `str.isalpha`: non-empty and all alphabetic. -/
def pyIsAlpha (s : String) : Bool := !s.isEmpty && s.data.all Char.isAlpha

/-- The catch-all error `SymbolSearchResult` of `search_symbol`. -/
def searchError (err : String) : SymbolSearchResult :=
  { symbol := "UNKNOWN", company_name := some "Error",
    exchange := some "N/A", found := false, error := some err }

/-- The name-search half of `search_symbol` (reached when the direct
symbol lookup is skipped or its payload is empty). -/
def searchByName (query : String) (searchU : Upstream RawSearchItem) :
    SymbolSearchResult :=
  match searchU with
  | .error e => searchError e
  | .ok [] =>
    { symbol := "UNKNOWN", company_name := some "Not Found",
      exchange := some "N/A", found := false,
      error := some ("No symbols found for query: " ++ query) }
  | .ok (r :: _) =>
    match r.symbol with
    | .null => searchError "validation error"
    | .absent =>
      { symbol := "UNKNOWN",
        company_name := r.name.optional "Unknown",
        exchange := r.exchangeShortName.optional "Unknown",
        found := true, error := none }
    | .val s =>
      { symbol := s, company_name := r.name.optional "Unknown",
        exchange := r.exchangeShortName.optional "Unknown",
        found := true, error := none }

/-- `FinancialModelingPrepTools.search_symbol`: a direct uppercase-ticker
profile lookup is tried first for queries of at most five alphabetic
characters; a transport failure during that lookup short-circuits into the
error record (the `except` handler), while an empty profile payload falls
through to the fuzzy name search. -/
def search_symbol (query : String) (profileU : Upstream RawProfile)
    (searchU : Upstream RawSearchItem) : SymbolSearchResult :=
  if query.length ≤ 5 ∧ pyIsAlpha query = true then
    match profileU with
    | .error e => searchError e
    | .ok [] => searchByName query searchU
    | .ok (c :: _) =>
      { symbol := pyUpper query
        company_name := c.companyName.optional "Unknown"
        exchange := c.exchangeShortName.optional "Unknown"
        found := true, error := none }
  else searchByName query searchU

/-- `models.schemas.ConversationMessage` (timestamp and the opaque
`structured_data` map are not inspected by any modelled operation and are
omitted). -/
structure ConversationMessage where
  role : String
  content : String
  agent_name : Option String
  deriving DecidableEq, Repr

/-- `models.schemas.WorkflowSummary` (key topics and companies lists are
not inspected by the modelled operations). -/
structure WorkflowSummary where
  summary : String
  message_count_at_generation : ℕ
  deriving DecidableEq, Repr

/-- The workflow's `session_state` dict: message log, rolling summary and
the transient routing keys the orchestrator writes. -/
structure SessionState where
  messages : List ConversationMessage
  conversation_summary : Option WorkflowSummary
  last_summary_message_count : ℕ
  companies_discussed : List String
  category : Option String
  symbol : Option String
  last_symbol : Option String
  data_category : Option String
  workflow_path : Option String
  deriving DecidableEq, Repr

/-- `agno.run.response.RunResponse`, reduced to the content the caller
reads. -/
structure RunResponse where
  content : String
  deriving DecidableEq, Repr

/-- Externally visible calls the orchestrator makes while handling one
request (capability invocations, DataProvider fetches, composition). -/
inductive Effect
  | summaryAgentCall
  | routerCall
  | extractionCall
  | chatAgentCall
  | fetchIncome (symbol : String)
  | fetchFinancials (symbol : String)
  | fetchPrice (symbol : String)
  | composeReport (symbol : String)
  deriving DecidableEq, Repr

/-- Result of one orchestrator step: updated session state, the effects
performed, and the responses yielded to the caller. -/
structure StepOut where
  state : SessionState
  effects : List Effect
  responses : List RunResponse
  deriving DecidableEq, Repr

/-- The five routing categories of `models.schemas.RouterResult`
(a pydantic `Literal`). -/
inductive Category
  | income_statement
  | company_financials
  | stock_price
  | report
  | chat
  deriving DecidableEq, Repr

/-- The label string carried by a `RouterResult.category`. -/
def Category.toLabel : Category → String
  | .income_statement => "income_statement"
  | .company_financials => "company_financials"
  | .stock_price => "stock_price"
  | .report => "report"
  | .chat => "chat"

/-- Content of the router capability's response: either a structured
`RouterResult` or a plain string. -/
inductive RouterOut
  | rstr (s : String)
  | rres (c : Category)
  deriving DecidableEq, Repr

/-- Content of the symbol-extraction capability's response: either a
structured `Extraction` object or a plain string. -/
inductive ExtractOut
  | estr (s : String)
  | eobj (symbol : String)
  deriving DecidableEq, Repr

/-- Content of the chat capability's response: either a structured
`ChatResponse` object or a plain string. -/
inductive ChatOut
  | cstr (s : String)
  | cobj (content : String)
  deriving DecidableEq, Repr

/-- Outcome of the summary capability call: an exception, a response
without usable content, a plain-string content, or a structured
`WorkflowSummary` content. -/
inductive SummaryAgentOut
  | failure
  | noContent
  | contentStr (s : String)
  | contentSummary (w : WorkflowSummary)
  deriving DecidableEq, Repr

/-- Python truthiness of an optional agent content: a missing response or
content, and empty-string content, are falsy. -/
def routerContentTruthy : Option RouterOut → Bool
  | none => false
  | some (.rstr s) => !s.isEmpty
  | some (.rres _) => true

/-- The category string the `run` router step produces: a structured
result contributes its label, a truthy plain string is stripped and
lowercased (once at extraction and once again before dispatch), and a
falsy result falls back to `chat`. -/
def categoryOf (out : Option RouterOut) : String :=
  match out with
  | some (.rres c) => pyLower (pyStrip c.toLabel)
  | some (.rstr s) =>
    if s.isEmpty then "chat"
    else pyLower (pyStrip (pyLower (pyStrip s)))
  | none => "chat"

/-- The content string logged for the router step. -/
def routerContentString (out : Option RouterOut) : String :=
  match out with
  | some (.rres c) => c.toLabel
  | some (.rstr s) => if s.isEmpty then "chat" else s
  | none => "chat"

/-- The symbol string the extraction step of `_run_report_flow` and
`_run_alone_flow` produces: a structured `Extraction` contributes its
`symbol` attribute verbatim, a truthy plain string is stripped, and a
missing or empty result falls back to the literal `UNKNOWN`. -/
def extractSymbol (out : Option ExtractOut) : String :=
  match out with
  | some (.eobj symbol) => symbol
  | some (.estr s) => if s.isEmpty then "UNKNOWN" else pyStrip s
  | none => "UNKNOWN"

/-- `FinancialAssistantWorkflow._update_conversation_summary` as a state
transition; the returned flag records whether the regeneration condition
`message_count > last_count and last_count > 0` held (that is, whether
the summary capability was invoked). -/
def update_conversation_summary (st : SessionState)
    (out : SummaryAgentOut) : SessionState × Bool :=
  let message_count := st.messages.length
  let last_count := st.last_summary_message_count
  if last_count < message_count ∧ 0 < last_count then
    match out with
    | .contentSummary w =>
      ({ st with
          conversation_summary := some w,
          last_summary_message_count := message_count }, true)
    | .contentStr s =>
      ({ st with
          conversation_summary := some
            { summary := s, message_count_at_generation := message_count },
          last_summary_message_count := message_count }, true)
    | .noContent => (st, true)
    | .failure => (st, true)
  else (st, false)

/-- `FinancialAssistantWorkflow._format_income_statement`. -/
def format_income_statement (data : IncomeStatementData) (symbol : String) :
    String :=
  "# Income Statement - " ++ symbol ++ "\n\n## Revenue\n- Total Revenue: " ++
  pyRepr data.revenue ++ "\n- Gross Profit: " ++ pyRepr data.gross_profit ++
  "\n\n## Expenses & Income\n- Operating Income: " ++
  pyRepr data.operating_income ++ "\n- Net Income: " ++
  pyRepr data.net_income ++ "\n\n## Key Metrics\n- EPS: " ++
  pyRepr data.eps ++ "\n- Operating Margin: " ++
  pyRepr data.operating_income_ratio ++ "\n\n*Data period: " ++
  data.date ++ "*\n"

/-- `FinancialAssistantWorkflow._format_company_financials`. -/
def format_company_financials (data : CompanyFinancialsData)
    (symbol : String) : String :=
  "# Company Financials - " ++ symbol ++
  "\n\n## Valuation Metrics\n- P/E Ratio: " ++ pyRepr data.pe_ratio ++
  "\n- Market Cap: " ++ pyRepr data.market_cap ++
  "\n- Enterprise Value: " ++ pyRepr data.enterprise_value ++
  "\n\n## Financial Ratios\n- ROE: " ++ pyRepr data.roe ++
  "\n- ROA: " ++ pyRepr data.roa ++ "\n- Debt to Equity: " ++
  pyRepr data.debt_to_equity ++ "\n\n## Profitability\n- Gross Margin: " ++
  pyRepr data.gross_margin ++ "\n- Operating Margin: " ++
  pyRepr data.operating_margin ++ "\n- Net Margin: " ++
  pyRepr data.net_margin ++ "\n"

/-- `FinancialAssistantWorkflow._format_stock_price`. -/
def format_stock_price (data : StockPriceData) (symbol : String) : String :=
  "# Stock Price - " ++ symbol ++ "\n\n## Current Price\n- Price: $" ++
  pyRepr data.price ++ "\n- Change: " ++ pyRepr data.change ++ " (" ++
  pyRepr data.change_percent ++ "%)\n\n## Trading Data\n- Volume: " ++
  toString data.volume ++ "\n- Market Cap: " ++ pyRepr data.market_cap ++
  "\n\n## 52-Week Range\n- High: $" ++ pyRepr data.fifty_two_week_high ++
  "\n- Low: $" ++ pyRepr data.fifty_two_week_low ++ "\n\n*Last updated: " ++
  toString data.timestamp ++ "*\n"

/-- `FinancialAssistantWorkflow._compose_financial_report`, with the
`datetime.now().strftime(...)` footer timestamp passed in as `ts` (the
only input not determined by the records). -/
def compose_financial_report (symbol : String)
    (income_data : IncomeStatementData)
    (financials_data : CompanyFinancialsData) (price_data : StockPriceData)
    (ts : String) : String :=
  "# Financial Report - " ++ symbol ++ " (" ++
  pyOrS financials_data.company_name (pyOrS price_data.name symbol) ++
  ")\n\n## Executive Summary\nComprehensive financial analysis of " ++
  pyOrS financials_data.company_name (pyOrS price_data.name symbol) ++
  " (" ++ symbol ++
  ") based on latest available data including income statement, financial ratios, and current market performance.\n\n**Data Quality Score**: " ++
  fmtPct1 (calculate_data_quality income_data financials_data price_data) ++
  "  \n**Data Completeness**: " ++
  fmtPct1 (calculate_completeness income_data financials_data price_data) ++
  "\n\n## Key Insights\n" ++
  String.intercalate "\n"
    ((generate_key_insights income_data financials_data price_data).map
      (fun insight => "• " ++ insight)) ++
  "\n\n## Financial Data\n\n### Income Statement\n" ++
  format_income_statement income_data symbol ++
  "\n\n### Company Financials & Ratios  \n" ++
  format_company_financials financials_data symbol ++
  "\n\n### Stock Price & Market Data\n" ++
  format_stock_price price_data symbol ++
  "\n\n## Analysis Summary\n\n**Strengths:**\n" ++
  String.intercalate "\n"
    ((identify_strengths income_data financials_data price_data).map
      (fun s => "• " ++ s)) ++
  "\n\n**Areas of Attention:**\n" ++
  String.intercalate "\n"
    ((identify_concerns income_data financials_data price_data).map
      (fun s => "• " ++ s)) ++
  "\n\n---\n*Report generated at " ++ ts ++ " UTC*\n"

/-- The fixed guidance string both flows return on an `UNKNOWN` symbol. -/
def unknownSymbolMessage : String :=
  "Could not extract a valid stock symbol from your request. Please specify a company name or ticker symbol."

/-- Append one message to the session log. -/
def SessionState.push (st : SessionState) (m : ConversationMessage) :
    SessionState :=
  { st with messages := st.messages ++ [m] }

/-- Everything the abstracted collaborators return during one request:
capability outputs and the outcomes of the (already typed) data fetches.
The fetch outcomes are `Except` because the orchestrator wraps each fetch
step in try/except (the error case models a runtime-level failure of the
fetch machinery; the fetch operations themselves return error records). -/
structure AgentEnv where
  routerOut : Option RouterOut
  extractOut : Option ExtractOut
  chatOut : Option ChatOut
  summaryOut : SummaryAgentOut
  reportFetch :
    Except String (IncomeStatementData × CompanyFinancialsData × StockPriceData)
  incomeFetch : Except String IncomeStatementData
  financialsFetch : Except String CompanyFinancialsData
  priceFetch : Except String StockPriceData
  ts : String

/-- `FinancialAssistantWorkflow._run_report_flow`. -/
def run_report_flow (st : SessionState) (env : AgentEnv) : StepOut :=
  let symbol := extractSymbol env.extractOut
  let st1 := st.push
    { role := "agent", content := "Extracted symbol: " ++ symbol,
      agent_name := some "Symbol Extraction Agent" }
  if symbol = "UNKNOWN" then
    let st2 := st1.push
      { role := "agent", content := unknownSymbolMessage,
        agent_name := some "Workflow System" }
    { state := st2, effects := [.extractionCall],
      responses := [{ content := unknownSymbolMessage }] }
  else
    let st2 := { st1 with symbol := some symbol }
    let fetchEffects := [Effect.fetchIncome symbol,
      Effect.fetchFinancials symbol, Effect.fetchPrice symbol]
    match env.reportFetch with
    | .error e =>
      { state := st2, effects := .extractionCall :: fetchEffects,
        responses :=
          [{ content := "Error retrieving financial data for " ++
              symbol ++ ": " ++ e }] }
    | .ok (income_data, financials_data, price_data) =>
      let report := compose_financial_report symbol income_data
        financials_data price_data env.ts
      let st3 := st2.push
        { role := "agent", content := report,
          agent_name := some "Financial Report Composer" }
      let st4 :=
        { st3 with
            last_symbol := some symbol, workflow_path := some "report" }
      { state := st4,
        effects := .extractionCall :: fetchEffects ++
          [.composeReport symbol],
        responses := [{ content := report }] }

/-- `FinancialAssistantWorkflow._run_alone_flow`. -/
def run_alone_flow (category : String) (st : SessionState) (env : AgentEnv) :
    StepOut :=
  let symbol := extractSymbol env.extractOut
  let st1 := st.push
    { role := "agent", content := "Extracted symbol: " ++ symbol,
      agent_name := some "Symbol Extraction Agent" }
  if symbol = "UNKNOWN" then
    let st2 := st1.push
      { role := "agent", content := unknownSymbolMessage,
        agent_name := some "Workflow System" }
    { state := st2, effects := [.extractionCall],
      responses := [{ content := unknownSymbolMessage }] }
  else
    let st2 := { st1 with symbol := some symbol }
    let fetched : Except String (String × Effect) :=
      if category = "income_statement" then
        match env.incomeFetch with
        | .error e => .error e
        | .ok d => .ok (format_income_statement d symbol,
            .fetchIncome symbol)
      else if category = "company_financials" then
        match env.financialsFetch with
        | .error e => .error e
        | .ok d => .ok (format_company_financials d symbol,
            .fetchFinancials symbol)
      else if category = "stock_price" then
        match env.priceFetch with
        | .error e => .error e
        | .ok d => .ok (format_stock_price d symbol, .fetchPrice symbol)
      else .error ""
    if category ≠ "income_statement" ∧ category ≠ "company_financials" ∧
        category ≠ "stock_price" then
      { state := st2, effects := [.extractionCall],
        responses := [{ content := "Invalid category for data request. Please specify income statement, company financials, or stock price." }] }
    else
      match fetched with
      | .error e =>
        { state := st2, effects := [.extractionCall],
          responses :=
            [{ content := "Error retrieving " ++
                replaceUnderscores category ++ " data for " ++ symbol ++
                ": " ++ e }] }
      | .ok (formatted_content, eff) =>
        let st3 := st2.push
          { role := "agent", content := formatted_content,
            agent_name := some "Financial Data Agent" }
        let st4 :=
          { st3 with
              last_symbol := some symbol, workflow_path := some "alone",
              data_category := some category }
        { state := st4, effects := [.extractionCall, eff],
          responses := [{ content := formatted_content }] }

/-- `FinancialAssistantWorkflow._run_chat_flow`. -/
def run_chat_flow (st : SessionState) (env : AgentEnv) : StepOut :=
  let st1 := { st with workflow_path := some "chat" }
  let final_content :=
    match env.chatOut with
    | some (.cobj content) => content
    | some (.cstr s) => if s.isEmpty then "No response generated" else s
    | none => "No response generated"
  let st2 := st1.push
    { role := "agent", content := final_content,
      agent_name := some "Chat Agent" }
  { state := st2, effects := [.chatAgentCall],
    responses := [{ content := final_content }] }

/-- `FinancialAssistantWorkflow.run`: validates the message, logs it,
refreshes the summary, routes, and dispatches to one of the three flows.
A missing `message` kwarg and an empty message both yield the falsy `""`. -/
def run_workflow (message : String) (st : SessionState) (env : AgentEnv) :
    StepOut :=
  if message.isEmpty then
    { state := st, effects := [],
      responses := [{ content := "No message provided" }] }
  else
    let st1 := st.push
      { role := "user", content := message, agent_name := none }
    let upd := update_conversation_summary st1 env.summaryOut
    let summaryEffects := if upd.2 then [Effect.summaryAgentCall] else []
    let st2 := upd.1
    let category := categoryOf env.routerOut
    let st3 := st2.push
      { role := "agent", content := routerContentString env.routerOut,
        agent_name := some "Router Agent" }
    let st4 := { st3 with category := some category }
    let flowOut :=
      if category = "report" then run_report_flow st4 env
      else if category = "chat" then run_chat_flow st4 env
      else run_alone_flow category st4 env
    { state := flowOut.state,
      effects := summaryEffects ++ [.routerCall] ++ flowOut.effects,
      responses := flowOut.responses }

/-- The shape claimed for every resolver output: a non-empty all-uppercase
alphabetic string, or the literal sentinel `UNKNOWN`. -/
def specUpperAlphaOrUnknown (s : String) : Prop :=
  (s ≠ "" ∧ s.data.all (fun c => c.isUpper && c.isAlpha) = true) ∨
  s = "UNKNOWN"

instance : DecidablePred specUpperAlphaOrUnknown := fun s => by
  unfold specUpperAlphaOrUnknown; infer_instance

/-- The fixed 11-field checklist the data-quality score counts over, in
source order: four income-statement fields, four financials fields, three
price fields. -/
def specChecklist (income_data : IncomeStatementData)
    (financials_data : CompanyFinancialsData) (price_data : StockPriceData) :
    List ℚ :=
  [income_data.revenue, income_data.net_income, income_data.eps,
   income_data.net_income_ratio, financials_data.pe_ratio,
   financials_data.market_cap, financials_data.roe,
   financials_data.debt_to_equity, price_data.price, price_data.change,
   (price_data.volume : ℚ)]

/-- The number of records (out of three) with at least one non-zero key
field, as the completeness score counts them. -/
def specSectionsAvailable (income_data : IncomeStatementData)
    (financials_data : CompanyFinancialsData) (price_data : StockPriceData) :
    ℕ :=
  (if income_data.revenue ≠ 0 ∨ income_data.net_income ≠ 0 then 1 else 0) +
  (if financials_data.pe_ratio ≠ 0 ∨ financials_data.market_cap ≠ 0
    then 1 else 0) +
  (if price_data.price ≠ 0 ∨ price_data.change ≠ 0 then 1 else 0)

/-- Two strings are distinct when they disagree on a prefix of the first
(used to tell the fixed insight strings apart by their leading
characters). -/
theorem string_append_ne_of_take (a b t : String) (n : ℕ)
    (hn : n ≤ a.data.length) (h : a.data.take n ≠ b.data.take n) :
    a ++ t ≠ b := by
  intro he
  apply h
  have h2 := congrArg (fun s => s.data.take n) he
  simpa [String.data_append, List.take_append_of_le_length hn] using h2

/-- C10: an empty (or missing, which the kwargs default makes empty)
message short-circuits `run`: exactly one response with content
`No message provided`, the session state untouched, and no capability or
DataProvider call performed. -/
theorem c10_empty_message (st : SessionState) (env : AgentEnv) :
    run_workflow "" st env =
      { state := st, effects := [],
        responses := [{ content := "No message provided" }] } := rfl

/-- C8: in both the report flow and the alone flow, an `UNKNOWN` resolved
symbol yields exactly the fixed guidance string and performs only the
extraction-capability call: no DataProvider fetch and no report
composition. -/
theorem c8_unknown_symbol_guidance (st : SessionState) (env : AgentEnv)
    (category : String) (h : extractSymbol env.extractOut = "UNKNOWN") :
    (run_report_flow st env).responses =
      [{ content := "Could not extract a valid stock symbol from your request. Please specify a company name or ticker symbol." }] ∧
    (run_report_flow st env).effects = [.extractionCall] ∧
    (run_alone_flow category st env).responses =
      [{ content := "Could not extract a valid stock symbol from your request. Please specify a company name or ticker symbol." }] ∧
    (run_alone_flow category st env).effects = [.extractionCall] := by
  refine ⟨?_, ?_, ?_, ?_⟩ <;>
    simp [run_report_flow, run_alone_flow, h, unknownSymbolMessage]

/-- C8 witness: a missing extraction result resolves to `UNKNOWN` and the
flows answer with the guidance string only. -/
theorem c8_unknown_symbol_guidance_witness :
    extractSymbol (none : Option ExtractOut) = "UNKNOWN" ∧
    (run_report_flow
      ⟨[], none, 0, [], none, none, none, none, none⟩
      ⟨none, none, none, .failure, .error "e", .error "e", .error "e",
        .error "e", "t"⟩).responses =
      [{ content := "Could not extract a valid stock symbol from your request. Please specify a company name or ticker symbol." }] :=
  ⟨rfl,
    (c8_unknown_symbol_guidance
      ⟨[], none, 0, [], none, none, none, none, none⟩
      ⟨none, none, none, .failure, .error "e", .error "e", .error "e",
        .error "e", "t"⟩ "chat" rfl).1⟩

/-- C1 counterexample: with six logged messages and no summary ever
recorded (`last_summary_message_count = 0`), the claimed trigger
`len(messages) - last_summary_message_count >= 5` holds, yet the code does
not regenerate; conversely with two messages and `last_count = 1` the
claimed threshold is not met, yet the code does regenerate. -/
theorem c1_counterexample :
    5 ≤ (List.replicate 6
        (⟨"user", "m", none⟩ : ConversationMessage)).length - 0 ∧
    (update_conversation_summary
      ⟨List.replicate 6 ⟨"user", "m", none⟩, none, 0, [], none, none, none,
        none, none⟩ (.contentStr "s")).2 = false ∧
    ¬ 5 ≤ (List.replicate 2
        (⟨"user", "m", none⟩ : ConversationMessage)).length - 1 ∧
    (update_conversation_summary
      ⟨List.replicate 2 ⟨"user", "m", none⟩, none, 1, [], none, none, none,
        none, none⟩ (.contentStr "s")).2 = true := by
  refine ⟨by decide, ?_, by decide, ?_⟩ <;> decide

/-- C1 amended: the summary-update operation invokes a regeneration
exactly when at least one new message has been appended since the recorded
summary point AND that recorded count is positive; there is no threshold
of five anywhere (and the bootstrap from `last_count = 0` never
regenerates). -/
theorem c1_summary_trigger_amended (st : SessionState)
    (out : SummaryAgentOut) :
    (update_conversation_summary st out).2 = true ↔
      st.last_summary_message_count < st.messages.length ∧
      0 < st.last_summary_message_count := by
  unfold update_conversation_summary
  by_cases h : st.last_summary_message_count < st.messages.length ∧
      0 < st.last_summary_message_count
  · cases out <;> simp [h]
  · simp [h]

/-- C3 counterexample: when the extraction capability returns the
structured symbol `aapl`, the resolution step returns `aapl` verbatim —
lowercase, hence neither an uppercase alphabetic string nor `UNKNOWN`. -/
theorem c3_counterexample :
    ¬ specUpperAlphaOrUnknown (extractSymbol (some (.eobj "aapl"))) := by
  decide

/-- C3 amended: the resolution step yields `UNKNOWN` when the capability
result is missing or its content is an empty string, and otherwise passes
the capability output through unaltered (the structured symbol verbatim,
a plain string stripped of whitespace): no non-emptiness, uppercase, or
alphabetic shape is enforced. -/
theorem c3_symbol_resolution_amended (out : Option ExtractOut) :
    extractSymbol out = "UNKNOWN" ∨
    (∃ s, out = some (.eobj s) ∧ extractSymbol out = s) ∨
    (∃ s, out = some (.estr s) ∧ s ≠ "" ∧ extractSymbol out = pyStrip s) := by
  match out with
  | none => exact Or.inl rfl
  | some (.eobj s) => exact Or.inr (Or.inl ⟨s, rfl, rfl⟩)
  | some (.estr s) =>
    by_cases h : s.isEmpty
    · exact Or.inl (by simp [extractSymbol, h])
    · refine Or.inr (Or.inr ⟨s, rfl, ?_, by simp [extractSymbol, h]⟩)
      simpa [String.isEmpty_iff] using h

/-- C4 counterexample: a non-empty classification result that is none of
the five labels (here the plain string `banana`) is not defaulted to
`chat`; it becomes the category verbatim. -/
theorem c4_counterexample : categoryOf (some (.rstr "banana")) ≠ "chat" := by
  decide

/-- C4 amended: the router step defaults to `chat` only when the
classification result is missing or empty; a structured result contributes
its label, while a non-empty plain string becomes the category itself
(stripped and lowercased) — an unrecognized category is then routed to the
alone path, which answers with the fixed invalid-category message instead
of raising. -/
theorem c4_router_default_amended :
    categoryOf none = "chat" ∧
    categoryOf (some (.rstr "")) = "chat" ∧
    (∀ c : Category, categoryOf (some (.rres c)) = c.toLabel) ∧
    categoryOf (some (.rstr "banana")) = "banana" ∧
    (∀ (st : SessionState) routerOut chatOut summaryOut reportFetch
        incomeFetch financialsFetch priceFetch ts,
      (run_alone_flow "banana" st
        ⟨routerOut, some (.eobj "AAPL"), chatOut, summaryOut, reportFetch,
          incomeFetch, financialsFetch, priceFetch, ts⟩).responses =
        [{ content := "Invalid category for data request. Please specify income statement, company financials, or stock price." }]) := by
  refine ⟨rfl, rfl, ?_, by decide, ?_⟩
  · intro c; cases c <;> decide
  · intro st routerOut chatOut summaryOut reportFetch incomeFetch
      financialsFetch priceFetch ts
    rfl

/-- Membership in a conditional singleton list forces equality with its
element. -/
theorem mem_if_singleton {c : Prop} [Decidable c] {x a : String}
    (h : x ∈ (if c then [a] else [])) : x = a := by
  split at h
  · simpa using h
  · simp at h

/-- Membership in a conditional list comes from one of the branches. -/
theorem mem_ite_cases {c : Prop} [Decidable c] {x : String}
    {l1 l2 : List String} (h : x ∈ (if c then l1 else l2)) :
    x ∈ l1 ∨ x ∈ l2 := by
  split at h
  · exact Or.inl h
  · exact Or.inr h

/-- Every key insight is the placeholder, one of the four prefixed data
insights, or the market-cap bucket string. -/
theorem mem_generate_key_insights (i : IncomeStatementData)
    (f : CompanyFinancialsData) (p : StockPriceData) (x : String)
    (hx : x ∈ generate_key_insights i f p) :
    x = "Financial data analysis in progress" ∨
    (∃ t, x = "Revenue: $" ++ t) ∨ (∃ t, x = "Net margin: " ++ t) ∨
    (∃ t, x = "P/E ratio: " ++ t) ∨ (∃ t, x = "Stock " ++ t) ∨
    x ∈ (market_cap_bucket (pyOr f.market_cap p.market_cap)).toList := by
  simp only [generate_key_insights] at hx
  rcases mem_ite_cases hx with hx | hx
  · left; simpa using hx
  · simp only [List.mem_append] at hx
    rcases hx with ((((h1 | h2) | h3) | h4) | h5)
    · exact Or.inr (Or.inl ⟨_, mem_if_singleton h1⟩)
    · exact Or.inr (Or.inr (Or.inl ⟨_, mem_if_singleton h2⟩))
    · exact Or.inr (Or.inr (Or.inr (Or.inl ⟨_, mem_if_singleton h3⟩)))
    · refine Or.inr (Or.inr (Or.inr (Or.inr (Or.inl ?_))))
      have h := mem_if_singleton h4
      simp only [String.append_assoc] at h
      exact ⟨_, h⟩
    · exact Or.inr (Or.inr (Or.inr (Or.inr (Or.inr h5))))

/-- C6: the data-quality score is exactly the non-zero count over the
fixed 11-field checklist divided by 11, the completeness score is exactly
the available-sections count divided by 3, both always lie in `[0, 1]`,
and the all-zero record triple scores 0 on both. -/
theorem c6_quality_scores :
    (∀ (i : IncomeStatementData) (f : CompanyFinancialsData)
        (p : StockPriceData),
      calculate_data_quality i f p =
        (((specChecklist i f p).filter (fun v => v ≠ 0)).length : ℚ) / 11 ∧
      calculate_completeness i f p = (specSectionsAvailable i f p : ℚ) / 3 ∧
      0 ≤ calculate_data_quality i f p ∧ calculate_data_quality i f p ≤ 1 ∧
      0 ≤ calculate_completeness i f p ∧
      calculate_completeness i f p ≤ 1) ∧
    calculate_data_quality (incomeFailure "X" "annual" "e")
      (financialsFailure "X" "e") (priceFailure "X" "e") = 0 ∧
    calculate_completeness (incomeFailure "X" "annual" "e")
      (financialsFailure "X" "e") (priceFailure "X" "e") = 0 := by
  refine ⟨fun i f p => ?_,
    by norm_num [calculate_data_quality, incomeFailure, financialsFailure,
      priceFailure],
    by norm_num [calculate_completeness, incomeFailure, financialsFailure,
      priceFailure]⟩
  have hq : calculate_data_quality i f p =
      (((specChecklist i f p).filter (fun v => v ≠ 0)).length : ℚ) / 11 := by
    simp [calculate_data_quality, specChecklist]
  have hc : calculate_completeness i f p =
      (specSectionsAvailable i f p : ℚ) / 3 := by
    simp [calculate_completeness, specSectionsAvailable]
  have hlen : ((specChecklist i f p).filter (fun v => v ≠ 0)).length ≤ 11 := by
    have := List.length_filter_le (fun v : ℚ => decide (v ≠ 0))
      (specChecklist i f p)
    simpa [specChecklist] using this
  have hsec : specSectionsAvailable i f p ≤ 3 := by
    unfold specSectionsAvailable; split_ifs <;> norm_num
  refine ⟨hq, hc, ?_, ?_, ?_, ?_⟩
  · rw [hq]; positivity
  · rw [hq]
    rw [div_le_one (by norm_num)]
    exact_mod_cast hlen
  · rw [hc]; positivity
  · rw [hc]
    rw [div_le_one (by norm_num)]
    exact_mod_cast hsec

/-- C7: market-cap bucketing uses strict greater-than boundaries — exactly
200B is Mid-cap, above 200B is Large-cap, above 10B (up to 200B) is
Mid-cap, any other positive value is Small-cap — and no bucket insight at
all is emitted when the effective market cap is not positive; a produced
bucket string always appears among the key insights. -/
theorem c7_market_cap_bucketing :
    market_cap_bucket 200000000000 = some "Mid-cap company ($10B-$200B)" ∧
    (∀ mc : ℚ, 200000000000 < mc →
      market_cap_bucket mc = some "Large-cap company (>$200B)") ∧
    (∀ mc : ℚ, 10000000000 < mc → mc ≤ 200000000000 →
      market_cap_bucket mc = some "Mid-cap company ($10B-$200B)") ∧
    (∀ mc : ℚ, 0 < mc → mc ≤ 10000000000 →
      market_cap_bucket mc = some "Small-cap company (<$10B)") ∧
    (∀ mc : ℚ, mc ≤ 0 → market_cap_bucket mc = none) ∧
    (∀ (i : IncomeStatementData) (f : CompanyFinancialsData)
        (p : StockPriceData) (s : String),
      market_cap_bucket (pyOr f.market_cap p.market_cap) = some s →
      s ∈ generate_key_insights i f p) ∧
    (∀ (i : IncomeStatementData) (f : CompanyFinancialsData)
        (p : StockPriceData), pyOr f.market_cap p.market_cap ≤ 0 →
      "Large-cap company (>$200B)" ∉ generate_key_insights i f p ∧
      "Mid-cap company ($10B-$200B)" ∉ generate_key_insights i f p ∧
      "Small-cap company (<$10B)" ∉ generate_key_insights i f p) := by
  refine ⟨by norm_num [market_cap_bucket], ?_, ?_, ?_, ?_, ?_, ?_⟩
  · intro mc h
    unfold market_cap_bucket
    rw [if_pos (by linarith), if_pos h]
  · intro mc h1 h2
    unfold market_cap_bucket
    rw [if_pos (by linarith), if_neg (by linarith), if_pos h1]
  · intro mc h1 h2
    unfold market_cap_bucket
    rw [if_pos h1, if_neg (by linarith), if_neg (by linarith)]
  · intro mc h
    unfold market_cap_bucket
    rw [if_neg (not_lt.mpr h)]
  · intro i f p s h
    have hne : ∀ l : List String, (l ++ [s]).isEmpty = false := by
      intro l; cases l <;> simp
    simp only [generate_key_insights, h, Option.toList]
    simp [hne, List.mem_append]
  · intro i f p hmc
    have hb : market_cap_bucket (pyOr f.market_cap p.market_cap) = none := by
      unfold market_cap_bucket; rw [if_neg (not_lt.mpr hmc)]
    refine ⟨?_, ?_, ?_⟩ <;>
    · intro hmem
      rcases mem_generate_key_insights i f p _ hmem with
        h | ⟨t, h⟩ | ⟨t, h⟩ | ⟨t, h⟩ | ⟨t, h⟩ | h
      · exact absurd h (by decide)
      · exact string_append_ne_of_take "Revenue: $" _ t 1 (by decide)
          (by decide) h.symm
      · exact string_append_ne_of_take "Net margin: " _ t 1 (by decide)
          (by decide) h.symm
      · exact string_append_ne_of_take "P/E ratio: " _ t 1 (by decide)
          (by decide) h.symm
      · exact string_append_ne_of_take "Stock " _ t 2 (by decide)
          (by decide) h.symm
      · rw [hb] at h; exact absurd h (by simp)

/-- C7 witness: at the boundary value the bucket is Mid-cap, and the three
range conjuncts hold at concrete inputs. -/
theorem c7_market_cap_bucketing_witness :
    (200000000000 : ℚ) < 300000000000 ∧
    market_cap_bucket 300000000000 = some "Large-cap company (>$200B)" ∧
    (0 : ℚ) < 5000000000 ∧ (5000000000 : ℚ) ≤ 10000000000 ∧
    market_cap_bucket 5000000000 = some "Small-cap company (<$10B)" ∧
    (-1 : ℚ) ≤ 0 ∧ market_cap_bucket (-1) = none :=
  ⟨by norm_num, c7_market_cap_bucketing.2.1 300000000000 (by norm_num),
    by norm_num, by norm_num,
    c7_market_cap_bucketing.2.2.2.1 5000000000 (by norm_num) (by norm_num),
    by norm_num, c7_market_cap_bucketing.2.2.2.2.1 (-1) (by norm_num)⟩

/-- C2 counterexample: with the key-metrics sub-request failing but the
ratios sub-request succeeding (debt/equity 2) and the profile sub-request
succeeding (company Acme, market cap 5), `get_company_financials` returns
the all-zero failure record: the surviving sub-requests' fields are NOT
populated, contradicting the claim for this outcome combination. -/
theorem c2_counterexample :
    get_company_financials "AAPL" (.error "boom")
      (.ok [⟨.num 1, .num 1, .num 2, .num 1, .num 1, .num 1, .num 1,
        .num 1, .num 1, .num 1⟩])
      (.ok [⟨.val "Acme", .num 5, .num 1, .val "d", .val "i", .val "s",
        .val "w", .val "c", .num 10, .val "US", .val "NYSE", .val "USD"⟩]) =
      financialsFailure "AAPL" "No financial data found for AAPL" := by
  decide

/-- C2 amended: a failed (or empty) ratios or profile sub-request only
zero-defaults its own fields while the fields of the surviving
sub-requests are still populated; but a failed or empty key-metrics
sub-request fails the whole operation to the all-zero `success=false`
failure record, discarding the surviving sub-requests' data. -/
theorem c2_partial_failure_amended :
    (∀ symbol e ratiosU profileU,
      get_company_financials symbol (.error e) ratiosU profileU =
        financialsFailure (pyUpper symbol)
          ("No financial data found for " ++ pyUpper symbol)) ∧
    (∀ symbol ratiosU profileU,
      get_company_financials symbol (.ok []) ratiosU profileU =
        financialsFailure (pyUpper symbol)
          ("No financial data found for " ++ pyUpper symbol)) ∧
    (∀ symbol (m : RawMetrics) rest profileU e,
      rawFinancialsWf m none ((profileU.toOption.getD []).head?) →
      ∀ r, r = get_company_financials symbol (.ok (m :: rest)) (.error e)
          profileU →
        r.success = true ∧ r.pe_ratio = m.peRatio.plainD ∧
        r.revenue_growth = m.revenueGrowth.plainD ∧
        r.enterprise_value = m.enterpriseValue.validated ∧
        r.working_capital = m.workingCapital.validated ∧
        r.company_name =
          (getStr ((profileU.toOption.getD []).head?)
            RawProfile.companyName).withDefaultD "Unknown" ∧
        r.market_cap =
          (getNum ((profileU.toOption.getD []).head?)
            RawProfile.mktCap).validated ∧
        r.debt_to_equity = 0 ∧ r.current_ratio = 0 ∧ r.quick_ratio = 0 ∧
        r.roe = 0 ∧ r.roa = 0 ∧ r.gross_margin = 0 ∧
        r.operating_margin = 0 ∧ r.net_margin = 0 ∧ r.price_to_book = 0 ∧
        r.price_to_sales = 0) ∧
    (∀ symbol (m : RawMetrics) rest ratiosU e,
      rawFinancialsWf m ((ratiosU.toOption.getD []).head?) none →
      ∀ r, r = get_company_financials symbol (.ok (m :: rest)) ratiosU
          (.error e) →
        r.success = true ∧ r.company_name = "Unknown" ∧ r.market_cap = 0 ∧
        r.beta = 0 ∧ r.pe_ratio = m.peRatio.plainD ∧
        r.debt_to_equity =
          (getNum ((ratiosU.toOption.getD []).head?)
            RawRatios.debtEquityRatio).plainD ∧
        r.roe =
          (getNum ((ratiosU.toOption.getD []).head?)
            RawRatios.returnOnEquity).plainD) := by
  refine ⟨?_, ?_, ?_, ?_⟩
  · intro symbol e ratiosU profileU
    simp [get_company_financials, Except.toOption]
  · intro symbol ratiosU profileU
    simp [get_company_financials, Except.toOption]
  · intro symbol m rest profileU e h r hr
    subst hr
    simp only [Except.toOption] at h
    simp [get_company_financials, buildFinancials, h, getNum, getStr,
      Except.toOption, JNum.plainD, JStr.withDefaultD]
  · intro symbol m rest ratiosU e h r hr
    subst hr
    simp only [Except.toOption] at h
    simp [get_company_financials, buildFinancials, h, getNum, getStr,
      Except.toOption, JNum.plainD, JNum.validated, JStr.withDefaultD]

/-- C2 witness: with key metrics present and the ratios leg failing, the
operation still succeeds and keeps the profile data. -/
theorem c2_partial_failure_amended_witness :
    rawFinancialsWf ⟨.num 7, .num 1, .num 2, .num 3, .val "2024"⟩ none
      ((Except.ok [(⟨.val "Acme", .num 5, .num 1, .val "d", .val "i",
        .val "s", .val "w", .val "c", .num 10, .val "US", .val "NYSE",
        .val "USD"⟩ : RawProfile)] :
          Upstream RawProfile).toOption.getD []).head? ∧
    (get_company_financials "a"
      (.ok [⟨.num 7, .num 1, .num 2, .num 3, .val "2024"⟩]) (.error "x")
      (.ok [⟨.val "Acme", .num 5, .num 1, .val "d", .val "i", .val "s",
        .val "w", .val "c", .num 10, .val "US", .val "NYSE",
        .val "USD"⟩])).success = true :=
  ⟨by decide,
    (c2_partial_failure_amended.2.2.1 "a"
      ⟨.num 7, .num 1, .num 2, .num 3, .val "2024"⟩ []
      (.ok [⟨.val "Acme", .num 5, .num 1, .val "d", .val "i", .val "s",
        .val "w", .val "c", .num 10, .val "US", .val "NYSE", .val "USD"⟩])
      "x" (by decide) _ rfl).1⟩

/-- C9: report composition is deterministic up to the timestamp — for
fixed symbol and records there is a single body string `b`, independent of
the clock, such that every composed report is exactly `b` followed by the
timestamp and the fixed closing text; two calls with identical inputs
therefore differ at most in the timestamp segment of the footer line. -/
theorem c9_compose_deterministic (symbol : String)
    (income_data : IncomeStatementData)
    (financials_data : CompanyFinancialsData)
    (price_data : StockPriceData) :
    ∃ b : String, ∀ ts : String,
      compose_financial_report symbol income_data financials_data price_data
        ts = b ++ (ts ++ " UTC*\n") := by
  exact ⟨_, fun ts => by
    simp only [compose_financial_report]
    rw [String.append_assoc]⟩

/-- C5: every DataProvider operation is total — it never raises to its
caller. For each of the five operations and every upstream outcome
(transport failure, empty payload, malformed payload rejected by
validation, or a well-formed payload) the result is an explicit typed
record; on every failure outcome the success flag (`found` for symbol
search) is false and `error` is set, and on success every numeric field
equals its zero-floored coercion (`validated`/`plainD`: absent or null
upstream values become 0, never null). -/
theorem c5_provider_totality :
    (∀ symbol period e, get_income_statement symbol period (.error e) =
      incomeFailure (pyUpper symbol) period
        ("Failed to fetch income statement for " ++ pyUpper symbol ++ ": " ++
          e)) ∧
    (∀ symbol period, get_income_statement symbol period (.ok []) =
      incomeFailure (pyUpper symbol) period
        ("No income statement data found for " ++ pyUpper symbol)) ∧
    (∀ symbol period (x : RawIncome) rest, rawIncomeWf x →
      ∀ r, r = get_income_statement symbol period (.ok (x :: rest)) →
        r.success = true ∧ r.error = none ∧
        r.revenue = x.revenue.validated ∧
        r.gross_profit = x.grossProfit.validated ∧
        r.operating_income = x.operatingIncome.validated ∧
        r.net_income = x.netIncome.validated ∧ r.eps = x.eps.plainD ∧
        r.gross_profit_ratio = x.grossProfitRatio.plainD ∧
        r.operating_income_ratio = x.operatingIncomeRatio.plainD ∧
        r.net_income_ratio = x.netIncomeRatio.plainD ∧
        r.research_and_development =
          x.researchAndDevelopmentExpenses.plainD ∧
        r.total_operating_expenses = x.totalOperatingExpenses.plainD) ∧
    (∀ symbol period (x : RawIncome) rest, ¬ rawIncomeWf x →
      get_income_statement symbol period (.ok (x :: rest)) =
        incomeFailure (pyUpper symbol) period
          ("Failed to fetch income statement for " ++ pyUpper symbol ++
            ": validation error")) ∧
    (∀ symbol nowTs e, get_stock_price symbol nowTs (.error e) =
      priceFailure (pyUpper symbol)
        ("Failed to fetch stock price for " ++ pyUpper symbol ++ ": " ++
          e)) ∧
    (∀ symbol nowTs, get_stock_price symbol nowTs (.ok []) =
      priceFailure (pyUpper symbol)
        ("No price data found for " ++ pyUpper symbol)) ∧
    (∀ symbol nowTs (q : RawQuote) rest, rawQuoteWf q →
      ∀ r, r = get_stock_price symbol nowTs (.ok (q :: rest)) →
        r.success = true ∧ r.error = none ∧ r.price = q.price.validated ∧
        r.change = q.change.validated ∧
        r.change_percent = q.changesPercentage.plainD ∧
        r.previous_close = q.previousClose.validated ∧
        r.open_ = q.openQ.validated ∧ r.high = q.dayHigh.validated ∧
        r.low = q.dayLow.validated ∧ r.volume = q.volume.validatedInt ∧
        r.avg_volume = q.avgVolume.validatedInt ∧
        r.market_cap = q.marketCap.plainD ∧ r.pe_ratio = q.pe.plainD ∧
        r.eps = q.epsQ.plainD ∧
        r.fifty_two_week_high = q.yearHigh.plainD ∧
        r.fifty_two_week_low = q.yearLow.plainD ∧
        r.timestamp = q.timestampQ.plainIntD nowTs) ∧
    (∀ symbol nowTs (q : RawQuote) rest, ¬ rawQuoteWf q →
      get_stock_price symbol nowTs (.ok (q :: rest)) =
        priceFailure (pyUpper symbol)
          ("Failed to fetch stock price for " ++ pyUpper symbol ++
            ": validation error")) ∧
    (∀ symbol e, get_company_profile symbol (.error e) =
      profileFailure (pyUpper symbol)
        ("Failed to fetch company profile for " ++ pyUpper symbol ++ ": " ++
          e)) ∧
    (∀ symbol, get_company_profile symbol (.ok []) =
      profileFailure (pyUpper symbol)
        ("No profile data found for " ++ pyUpper symbol)) ∧
    (∀ symbol (p : RawProfile) rest, rawProfileWf p →
      ∀ r, r = get_company_profile symbol (.ok (p :: rest)) →
        r.success = true ∧ r.error = none ∧
        r.employees = p.fullTimeEmployees.plainIntD 0 ∧
        r.company_name = p.companyName.withDefaultD "Unknown") ∧
    (∀ symbol (p : RawProfile) rest, ¬ rawProfileWf p →
      get_company_profile symbol (.ok (p :: rest)) =
        profileFailure (pyUpper symbol)
          ("Failed to fetch company profile for " ++ pyUpper symbol ++
            ": validation error")) ∧
    (∀ symbol e ratiosU profileU,
      get_company_financials symbol (.error e) ratiosU profileU =
        financialsFailure (pyUpper symbol)
          ("No financial data found for " ++ pyUpper symbol)) ∧
    (∀ symbol (m : RawMetrics) rest ratiosU profileU,
      rawFinancialsWf m ((ratiosU.toOption.getD []).head?)
          ((profileU.toOption.getD []).head?) →
      ∀ r, r = get_company_financials symbol (.ok (m :: rest)) ratiosU
          profileU →
        r.success = true ∧ r.error = none ∧ r.pe_ratio = m.peRatio.plainD ∧
        r.revenue_growth = m.revenueGrowth.plainD ∧
        r.enterprise_value = m.enterpriseValue.validated ∧
        r.working_capital = m.workingCapital.validated ∧
        r.market_cap =
          (getNum ((profileU.toOption.getD []).head?)
            RawProfile.mktCap).validated ∧
        r.beta =
          (getNum ((profileU.toOption.getD []).head?)
            RawProfile.beta).plainD ∧
        r.debt_to_equity =
          (getNum ((ratiosU.toOption.getD []).head?)
            RawRatios.debtEquityRatio).plainD ∧
        r.roe =
          (getNum ((ratiosU.toOption.getD []).head?)
            RawRatios.returnOnEquity).plainD) ∧
    (∀ symbol (m : RawMetrics) rest ratiosU profileU,
      ¬ rawFinancialsWf m ((ratiosU.toOption.getD []).head?)
          ((profileU.toOption.getD []).head?) →
      get_company_financials symbol (.ok (m :: rest)) ratiosU profileU =
        financialsFailure (pyUpper symbol)
          ("Failed to fetch company financials for " ++ pyUpper symbol ++
            ": validation error")) ∧
    (∀ query e searchU, query.length ≤ 5 ∧ pyIsAlpha query = true →
      search_symbol query (.error e) searchU = searchError e) ∧
    (∀ query profileU searchU,
      ¬ (query.length ≤ 5 ∧ pyIsAlpha query = true) →
      search_symbol query profileU searchU = searchByName query searchU) ∧
    (∀ query, searchByName query (.ok []) =
      { symbol := "UNKNOWN", company_name := some "Not Found",
        exchange := some "N/A", found := false,
        error := some ("No symbols found for query: " ++ query) }) ∧
    (∀ query e, searchByName query (.error e) = searchError e) := by
  refine ⟨fun symbol period e => rfl, fun symbol period => rfl,
    ?_, ?_, fun symbol nowTs e => rfl, fun symbol nowTs => rfl, ?_, ?_,
    fun symbol e => rfl, fun symbol => rfl, ?_, ?_,
    ?_, ?_, ?_, ?_, ?_, fun query => rfl, fun query e => rfl⟩
  · intro symbol period x rest h r hr
    subst hr
    simp [get_income_statement, buildIncome, h]
  · intro symbol period x rest h
    simp [get_income_statement, buildIncome, h]
  · intro symbol nowTs q rest h r hr
    subst hr
    simp [get_stock_price, buildQuote, h]
  · intro symbol nowTs q rest h
    simp [get_stock_price, buildQuote, h]
  · intro symbol p rest h r hr
    subst hr
    simp [get_company_profile, buildProfile, h]
  · intro symbol p rest h
    simp [get_company_profile, buildProfile, h]
  · intro symbol e ratiosU profileU
    simp [get_company_financials, Except.toOption]
  · intro symbol m rest ratiosU profileU h r hr
    subst hr
    simp only [Except.toOption] at h
    simp [get_company_financials, buildFinancials, h, Except.toOption]
  · intro symbol m rest ratiosU profileU h
    simp only [Except.toOption] at h
    simp [get_company_financials, buildFinancials, h, Except.toOption]
  · intro query e searchU h
    simp [search_symbol, h]
  · intro query profileU searchU h
    simp [search_symbol, h]

/-- C5 witness: a fully populated income-statement payload passes
validation and produces a success record with the upstream values, and a
null-carrying payload for a validator-less field degrades to the flagged
failure record instead of raising. -/
theorem c5_provider_totality_witness :
    rawIncomeWf ⟨.val "2024", .val "annual", .num 7, .num 6, .num 5,
      .num 4, .num 3, .num 2, .num 1, .absent, .absent, .absent⟩ ∧
    (get_income_statement "aapl" "annual"
      (.ok [⟨.val "2024", .val "annual", .num 7, .num 6, .num 5, .num 4,
        .num 3, .num 2, .num 1, .absent, .absent, .absent⟩])).success =
      true := by
  exact ⟨by decide,
    (c5_provider_totality.2.2.1 "aapl" "annual"
      ⟨.val "2024", .val "annual", .num 7, .num 6, .num 5, .num 4, .num 3,
        .num 2, .num 1, .absent, .absent, .absent⟩ [] (by decide) _ rfl).1⟩

end FinAssist
